import Mathlib

/-!
Verification of the fraud-detection-service core against its specification.

The TypeScript source is shallowly embedded in Lean:
JavaScript numbers are modelled as exact rationals (`ℚ`), strings as
`String`, arrays as `List`, and `Date` parsing as an abstract parsed
timestamp (`JsDate`).  `Math.sqrt` appears only inside comparisons
`stdDev > c` with `c ≥ 0`, which are embedded as the equivalent
`variance > c ^ 2`.
-/

/-- JavaScript `String.prototype.includes` helper: `charsPre sub l` is true
when `sub` is an initial segment of `l`. -/
def charsPre : List Char → List Char → Bool
  | [], _ => true
  | _ :: _, [] => false
  | a :: as, b :: bs => a == b && charsPre as bs

/-- `charsSub sub l` is true when `sub` occurs contiguously inside `l`. -/
def charsSub (sub : List Char) : List Char → Bool
  | [] => sub.isEmpty
  | c :: rest => charsPre sub (c :: rest) || charsSub sub rest

/-- JavaScript `s.includes(sub)`. -/
def strIncludes (s sub : String) : Bool :=
  charsSub sub.data s.data

/-- JavaScript `s.toLowerCase()` (ASCII, which is all the source uses). -/
def jsToLower (s : String) : String :=
  ⟨s.data.map Char.toLower⟩

/-- JavaScript `Math.round(x * 100) / 100` for `x ≥ 0`: round to two
decimal places, halves rounding up.  Uses the computable `Rat.floor`. -/
def jsRound2 (q : ℚ) : ℚ :=
  ((q * 100 + 1 / 2).floor : ℚ) / 100

/-- `Rat.floor` agrees with the floor of the `FloorRing` instance. -/
theorem ratFloor_eq_floor (q : ℚ) : q.floor = ⌊q⌋ := by
  rw [Rat.floor_def', Rat.floor_def]

/-- JavaScript `Math.max` on two numbers. -/
def jsMax (a b : ℚ) : ℚ :=
  if a ≤ b then b else a

/-- JavaScript `Math.min` on two numbers. -/
def jsMin (a b : ℚ) : ℚ :=
  if a ≤ b then a else b

/-- `Math.min(1.0, Math.max(0.0, x))` from both analyzers. -/
def clamp01 (q : ℚ) : ℚ :=
  jsMin 1 (jsMax 0 q)

/-! ## Human-intent detection (src/modules/human-intent-detection/behaviorAnalyzer.ts) -/

structure BehaviorAnalysisRequest where
  userId : String
  sessionId : String
  typingSpeed : ℚ
  mouseMovement : ℚ
  clickPattern : List ℚ
  navigationTime : ℚ
  pagesVisited : List String
deriving Repr

structure BehaviorAnalysisResponse where
  sessionId : String
  intentRiskScore : ℚ
  behaviorFlags : List String
deriving Repr, DecidableEq

/-- `TYPING_SPEED_THRESHOLD_LOW`. -/
def TYPING_SPEED_THRESHOLD_LOW : ℚ := 180

/-- `TYPING_SPEED_THRESHOLD_HIGH`. -/
def TYPING_SPEED_THRESHOLD_HIGH : ℚ := 350

/-- `MOUSE_MOVEMENT_THRESHOLD_LOW`. -/
def MOUSE_MOVEMENT_THRESHOLD_LOW : ℚ := 800

/-- `MOUSE_MOVEMENT_THRESHOLD_HIGH`. -/
def MOUSE_MOVEMENT_THRESHOLD_HIGH : ℚ := 2500

/-- `CLICK_PATTERN_VARIANCE_THRESHOLD`. -/
def CLICK_PATTERN_VARIANCE_THRESHOLD : ℚ := 150

/-- `NAVIGATION_TIME_THRESHOLD`. -/
def NAVIGATION_TIME_THRESHOLD : ℚ := 20

/-- `SENSITIVE_PAGES`. -/
def SENSITIVE_PAGES : List String :=
  ["transfer", "confirmation", "payment", "withdrawal"]

/-- `BehaviorAnalyzer.analyzeTypingSpeed`. -/
def analyzeTypingSpeed (typingSpeed : ℚ) : ℚ :=
  if typingSpeed < TYPING_SPEED_THRESHOLD_LOW * 0.7 then 0.95
  else if typingSpeed < TYPING_SPEED_THRESHOLD_LOW then 0.85
  else if typingSpeed < TYPING_SPEED_THRESHOLD_LOW * 1.15 then 0.65
  else if typingSpeed < TYPING_SPEED_THRESHOLD_LOW * 1.3 then 0.35
  else if typingSpeed > TYPING_SPEED_THRESHOLD_HIGH * 1.2 then 0.5
  else if typingSpeed > TYPING_SPEED_THRESHOLD_HIGH then 0.4
  else 0

/-- `BehaviorAnalyzer.analyzeMouseMovement`. -/
def analyzeMouseMovement (mouseMovement : ℚ) : ℚ :=
  if mouseMovement < MOUSE_MOVEMENT_THRESHOLD_LOW * 0.5 then 0.85
  else if mouseMovement < MOUSE_MOVEMENT_THRESHOLD_LOW then 0.7
  else if mouseMovement < MOUSE_MOVEMENT_THRESHOLD_LOW * 1.2 then 0.45
  else if mouseMovement > MOUSE_MOVEMENT_THRESHOLD_HIGH * 1.3 then 0.6
  else if mouseMovement > MOUSE_MOVEMENT_THRESHOLD_HIGH then 0.5
  else 0

/-- `BehaviorAnalyzer.analyzeClickPattern`.  The source compares
`stdDev = Math.sqrt(variance)` against nonnegative thresholds `c`; each
comparison `stdDev > c` is embedded as the equivalent `variance > c ^ 2`. -/
def analyzeClickPattern (clickPattern : List ℚ) : ℚ :=
  if clickPattern.length < 2 then 0
  else
    let n : ℚ := clickPattern.length
    let mean : ℚ := clickPattern.sum / n
    let variance : ℚ := (clickPattern.map (fun v => (v - mean) * (v - mean))).sum / n
    if variance > (CLICK_PATTERN_VARIANCE_THRESHOLD * 1.5) * (CLICK_PATTERN_VARIANCE_THRESHOLD * 1.5) then 0.9
    else if variance > CLICK_PATTERN_VARIANCE_THRESHOLD * CLICK_PATTERN_VARIANCE_THRESHOLD then 0.8
    else if variance > (CLICK_PATTERN_VARIANCE_THRESHOLD * 0.6) * (CLICK_PATTERN_VARIANCE_THRESHOLD * 0.6) then 0.55
    else if variance > (CLICK_PATTERN_VARIANCE_THRESHOLD * 0.4) * (CLICK_PATTERN_VARIANCE_THRESHOLD * 0.4) then 0.3
    else 0

/-- The `hasSensitivePage` test inside `analyzeNavigationTime`. -/
def hasSensitivePage (pagesVisited : List String) : Bool :=
  pagesVisited.any (fun page =>
    SENSITIVE_PAGES.any (fun sensitive =>
      strIncludes (jsToLower page) (jsToLower sensitive)))

/-- `BehaviorAnalyzer.analyzeNavigationTime`. -/
def analyzeNavigationTime (navigationTime : ℚ) (pagesVisited : List String) : ℚ :=
  if hasSensitivePage pagesVisited ∧ navigationTime > NAVIGATION_TIME_THRESHOLD then
    if navigationTime > NAVIGATION_TIME_THRESHOLD * 3 then 0.95
    else if navigationTime > NAVIGATION_TIME_THRESHOLD * 2 then 0.9
    else if navigationTime > NAVIGATION_TIME_THRESHOLD * 1.5 then 0.75
    else 0.65
  else if hasSensitivePage pagesVisited ∧ navigationTime > NAVIGATION_TIME_THRESHOLD * 0.7 then 0.35
  else 0

/-- `BehaviorAnalyzer.analyzePageVisits`. -/
def analyzePageVisits (pagesVisited : List String) : ℚ :=
  let hasLogin := pagesVisited.any (fun page => strIncludes (jsToLower page) "login")
  let hasConfirmation := pagesVisited.any (fun page => strIncludes (jsToLower page) "confirmation")
  let hasTransfer := pagesVisited.any (fun page => strIncludes (jsToLower page) "transfer")
  let hasPayment := pagesVisited.any (fun page => strIncludes (jsToLower page) "payment")
  if (hasTransfer || hasConfirmation || hasPayment) && !hasLogin then 0.9
  else if hasConfirmation && !hasTransfer && !hasPayment then 0.65
  else if (hasTransfer || hasConfirmation || hasPayment) && pagesVisited.length ≤ 2 then 0.5
  else 0

/-- The raw weighted sum accumulated in `riskScore` by
`BehaviorAnalyzer.analyzeBehavior` before the final clamp and rounding
(each factor contributes `risk * weight` exactly when `risk > 0`). -/
def behaviorRawScore (r : BehaviorAnalysisRequest) : ℚ :=
  (if analyzeTypingSpeed r.typingSpeed > 0 then analyzeTypingSpeed r.typingSpeed * 0.28 else 0)
  + (if analyzeMouseMovement r.mouseMovement > 0 then analyzeMouseMovement r.mouseMovement * 0.22 else 0)
  + (if analyzeClickPattern r.clickPattern > 0 then analyzeClickPattern r.clickPattern * 0.22 else 0)
  + (if analyzeNavigationTime r.navigationTime r.pagesVisited > 0 then
      analyzeNavigationTime r.navigationTime r.pagesVisited * 0.28 else 0)
  + (if analyzePageVisits r.pagesVisited > 0 then analyzePageVisits r.pagesVisited * 0.12 else 0)

/-- The flags pushed by `BehaviorAnalyzer.analyzeBehavior`, in push order. -/
def behaviorFlagsOf (r : BehaviorAnalysisRequest) : List String :=
  (if analyzeTypingSpeed r.typingSpeed > 0 then ["typing_slow"] else [])
  ++ (if analyzeMouseMovement r.mouseMovement > 0 then ["unusual_mouse_pattern"] else [])
  ++ (if analyzeClickPattern r.clickPattern > 0 then ["irregular_click_timing"] else [])
  ++ (if analyzeNavigationTime r.navigationTime r.pagesVisited > 0 then ["long_navigation_time"] else [])
  ++ (if analyzePageVisits r.pagesVisited > 0 then ["unusual_page_sequence"] else [])

/-- `BehaviorAnalyzer.analyzeBehavior`. -/
def analyzeBehavior (r : BehaviorAnalysisRequest) : BehaviorAnalysisResponse :=
  { sessionId := r.sessionId
    intentRiskScore := jsRound2 (clamp01 (behaviorRawScore r))
    behaviorFlags := behaviorFlagsOf r }

/-! ## Predictive scam prevention (src/modules/predictive-scam-prevention/transactionAnalyzer.ts) -/

/-- Parsed view of the ISO-8601 timestamp string handed to `new Date(...)`:
either unparseable, or carrying the UTC hour (`getUTCHours`) and UTC day of
week (`getUTCDay`, 0 = Sunday). -/
inductive JsDate where
  | invalid : JsDate
  | valid (utcHour : ℕ) (utcDay : ℕ) : JsDate
deriving Repr, DecidableEq

structure TransactionPredictionRequest where
  transactionId : String
  userId : String
  amount : ℚ
  currency : String
  recipientAccount : String
  userAverageTransAmount : ℚ
  transactionType : String
  location : String
  timestamp : JsDate
  deviceId : String
deriving Repr

inductive PredictionResult where
  | SAFE | SUSPICIOUS | HIGH_RISK
deriving Repr, DecidableEq

inductive RecommendedAction where
  | APPROVE | FLAG_FOR_REVIEW | DELAY_AND_MFA | BLOCK
deriving Repr, DecidableEq

structure TransactionPredictionResponse where
  transactionId : String
  predictionResult : PredictionResult
  riskScore : ℚ
  recommendedAction : RecommendedAction
  reasonCodes : List String
deriving Repr, DecidableEq

/-- `HIGH_AMOUNT_MULTIPLIER`. -/
def HIGH_AMOUNT_MULTIPLIER : ℚ := 3

/-- `VERY_HIGH_AMOUNT_MULTIPLIER`. -/
def VERY_HIGH_AMOUNT_MULTIPLIER : ℚ := 5

/-- `HIGH_RISK_SCORE_THRESHOLD`. -/
def HIGH_RISK_SCORE_THRESHOLD : ℚ := 0.6

/-- `SUSPICIOUS_SCORE_THRESHOLD`. -/
def SUSPICIOUS_SCORE_THRESHOLD : ℚ := 0.3

/-- `HIGH_RISK_TRANSACTION_TYPES`. -/
def HIGH_RISK_TRANSACTION_TYPES : List String :=
  ["wire_transfer", "international_transfer", "cryptocurrency", "money_order", "cash_advance"]

/-- `HIGH_RISK_LOCATIONS`. -/
def HIGH_RISK_LOCATIONS : List String :=
  ["offshore", "tax_haven", "sanctioned_country"]

/-- `TransactionAnalyzer.analyzeAmount`. -/
def analyzeAmount (amount averageAmount : ℚ) : ℚ :=
  if averageAmount ≤ 0 then 0.65
  else
    let ratio := amount / averageAmount
    if ratio ≥ VERY_HIGH_AMOUNT_MULTIPLIER then 0.98
    else if ratio ≥ HIGH_AMOUNT_MULTIPLIER then 0.85
    else if ratio ≥ 2 then 0.65
    else if ratio ≥ 1.5 then 0.45
    else if ratio ≥ 1.2 then 0.25
    else 0

/-- The `transactionType.toLowerCase().replace(/[_-]/g, '_')` normalization. -/
def normalizeType (transactionType : String) : String :=
  ⟨(jsToLower transactionType).data.map (fun c => if c = '_' ∨ c = '-' then '_' else c)⟩

/-- `TransactionAnalyzer.analyzeTransactionType`. -/
def analyzeTransactionType (transactionType : String) : ℚ :=
  let normalizedType := normalizeType transactionType
  if HIGH_RISK_TRANSACTION_TYPES.any (fun ty => strIncludes normalizedType ty) then 0.85
  else if strIncludes normalizedType "transfer" || strIncludes normalizedType "payment" then 0.45
  else if normalizedType.length > 0 then 0.15
  else 0

/-- `TransactionAnalyzer.analyzeLocation`. -/
def analyzeLocation (location : String) : ℚ :=
  let normalizedLocation := jsToLower location
  if HIGH_RISK_LOCATIONS.any (fun riskLocation => strIncludes normalizedLocation riskLocation) then 0.9
  else if strIncludes normalizedLocation "international" || strIncludes normalizedLocation "foreign" then 0.55
  else if strIncludes normalizedLocation "country" || strIncludes normalizedLocation "state"
      || strIncludes normalizedLocation "abroad" then 0.3
  else 0

/-- The `deviceId.match(/^[a-z0-9-]+$/i)` test. -/
def matchesDeviceFormat (deviceId : String) : Bool :=
  !deviceId.data.isEmpty && deviceId.data.all (fun c => c.isAlphanum || c = '-')

/-- `TransactionAnalyzer.analyzeDevice` (the `userId` parameter is unused in
the source as well). -/
def analyzeDevice (deviceId : String) (userId : String) : ℚ :=
  if strIncludes (jsToLower deviceId) "new" || strIncludes (jsToLower deviceId) "temp" then 0.8
  else if strIncludes (jsToLower deviceId) "unknown" || strIncludes (jsToLower deviceId) "guest"
      || deviceId.length < 5 then 0.7
  else if !strIncludes (jsToLower deviceId) "device-" && !matchesDeviceFormat deviceId then 0.4
  else 0

/-- `TransactionAnalyzer.analyzeTiming` (the `userId` parameter is unused in
the source as well).  `new Date(badString)` does not throw in JavaScript:
`getUTCHours()`/`getUTCDay()` return `NaN`, every tier comparison is false,
and the function falls through to `0.0`, so the unparseable case maps to
`0` (the source's catch branch is unreachable for string inputs). -/
def analyzeTiming (timestamp : JsDate) (userId : String) : ℚ :=
  match timestamp with
  | .invalid => 0
  | .valid hour dayOfWeek =>
    if hour ≥ 1 ∧ hour < 7 then 0.65
    else if hour ≥ 22 ∨ hour < 1 then 0.45
    else if hour ≥ 7 ∧ hour < 9 then 0.3
    else if dayOfWeek = 0 ∨ dayOfWeek = 6 then 0.25
    else 0

/-- The `recipientAccount.match(/^[0-9]{4,}$/)` test. -/
def allNumericAccount (recipientAccount : String) : Bool :=
  recipientAccount.length ≥ 4 && recipientAccount.data.all Char.isDigit

/-- `TransactionAnalyzer.analyzeRecipient` (the `userId` parameter is unused
in the source as well). -/
def analyzeRecipient (recipientAccount : String) (userId : String) : ℚ :=
  if recipientAccount.length < 5 || strIncludes (jsToLower recipientAccount) "temp"
      || strIncludes (jsToLower recipientAccount) "test" then 0.85
  else if strIncludes (jsToLower recipientAccount) "unknown"
      || strIncludes (jsToLower recipientAccount) "new"
      || allNumericAccount recipientAccount then 0.6
  else if recipientAccount.length < 8 then 0.35
  else 0

/-- The reason codes pushed by `TransactionAnalyzer.analyzeTransaction`, in
push (= factor evaluation) order. -/
def txReasonCodes (r : TransactionPredictionRequest) : List String :=
  (if analyzeAmount r.amount r.userAverageTransAmount > 0 then
    (if r.amount > r.userAverageTransAmount * VERY_HIGH_AMOUNT_MULTIPLIER then
      ["VERY_HIGH_AMOUNT"] else ["HIGH_AMOUNT"]) else [])
  ++ (if analyzeTransactionType r.transactionType > 0 then ["HIGH_RISK_TRANSACTION_TYPE"] else [])
  ++ (if analyzeLocation r.location > 0 then ["HIGH_RISK_LOCATION"] else [])
  ++ (if analyzeDevice r.deviceId r.userId > 0 then ["NEW_DEVICE"] else [])
  ++ (if analyzeTiming r.timestamp r.userId > 0 then ["UNUSUAL_TIMING"] else [])
  ++ (if analyzeRecipient r.recipientAccount r.userId > 0 then ["NEW_RECIPIENT"] else [])

/-- The raw weighted sum accumulated in `riskScore` by
`TransactionAnalyzer.analyzeTransaction` before the final clamp and
rounding. -/
def txRawScore (r : TransactionPredictionRequest) : ℚ :=
  (if analyzeAmount r.amount r.userAverageTransAmount > 0 then
    analyzeAmount r.amount r.userAverageTransAmount * 0.32 else 0)
  + (if analyzeTransactionType r.transactionType > 0 then
      analyzeTransactionType r.transactionType * 0.22 else 0)
  + (if analyzeLocation r.location > 0 then analyzeLocation r.location * 0.18 else 0)
  + (if analyzeDevice r.deviceId r.userId > 0 then analyzeDevice r.deviceId r.userId * 0.18 else 0)
  + (if analyzeTiming r.timestamp r.userId > 0 then analyzeTiming r.timestamp r.userId * 0.12 else 0)
  + (if analyzeRecipient r.recipientAccount r.userId > 0 then
      analyzeRecipient r.recipientAccount r.userId * 0.12 else 0)

/-- `TransactionAnalyzer.determineAction`. -/
def determineAction (riskScore : ℚ) (reasonCodes : List String) : RecommendedAction :=
  if riskScore ≥ 0.85
      ∨ (riskScore ≥ 0.7
        ∧ (reasonCodes.contains "VERY_HIGH_AMOUNT" ∨ reasonCodes.contains "HIGH_RISK_LOCATION"))
      ∨ reasonCodes.length ≥ 4 then .BLOCK
  else if riskScore ≥ HIGH_RISK_SCORE_THRESHOLD
      ∨ (riskScore ≥ 0.5
        ∧ (reasonCodes.contains "HIGH_AMOUNT" ∨ reasonCodes.contains "NEW_DEVICE"
          ∨ reasonCodes.contains "HIGH_RISK_TRANSACTION_TYPE"))
      ∨ reasonCodes.length ≥ 3 then .DELAY_AND_MFA
  else if riskScore ≥ SUSPICIOUS_SCORE_THRESHOLD
      ∨ reasonCodes.length ≥ 2
      ∨ riskScore ≥ 0.25 then .FLAG_FOR_REVIEW
  else .APPROVE

/-- `TransactionAnalyzer.analyzeTransaction`.  The prediction category and
the recommended action are computed from the clamped (not yet rounded)
score, exactly as in the source. -/
def analyzeTransaction (r : TransactionPredictionRequest) : TransactionPredictionResponse :=
  let riskScore := clamp01 (txRawScore r)
  { transactionId := r.transactionId
    predictionResult :=
      if riskScore ≥ HIGH_RISK_SCORE_THRESHOLD then .HIGH_RISK
      else if riskScore ≥ SUSPICIOUS_SCORE_THRESHOLD then .SUSPICIOUS
      else .SAFE
    riskScore := jsRound2 riskScore
    recommendedAction := determineAction riskScore (txReasonCodes r)
    reasonCodes := txReasonCodes r }

/-! ## Cross-banking fraud sharing (src/modules/cross-banking-fraud-sharing/fraudService.ts) -/

structure FraudRecord where
  fraudId : String
  bankId : String
  deviceIdHash : String
  accountIdHash : String
  transactionPatternHash : String
  fraudType : String
  timestamp : String
  severity : String
  submittedAt : String
deriving Repr, DecidableEq

structure FraudSubmissionRequest where
  bankId : String
  deviceIdHash : String
  accountIdHash : String
  transactionPatternHash : String
  fraudType : String
  timestamp : String
  severity : String
deriving Repr, DecidableEq

structure FraudSubmissionResponse where
  success : Bool
  message : String
  fraudId : Option String
deriving Repr, DecidableEq

/-- Outcome of one `FraudService.submitFraud` call: the HTTP-level response,
the in-memory working set afterwards, and whether a write-through to the
durable store was attempted. -/
structure SubmitOutcome where
  response : FraudSubmissionResponse
  newRecords : List FraudRecord
  s3PutAttempted : Bool
deriving Repr, DecidableEq

/-- The record object built inside `submitFraud` (the generated `fraudId`
and the `submittedAt` wall-clock string are inputs of the model). -/
def mkFraudRecord (request : FraudSubmissionRequest) (fraudId submittedAt : String) : FraudRecord :=
  { fraudId := fraudId
    bankId := request.bankId
    deviceIdHash := request.deviceIdHash
    accountIdHash := request.accountIdHash
    transactionPatternHash := request.transactionPatternHash
    fraudType := request.fraudType
    timestamp := request.timestamp
    severity := request.severity
    submittedAt := submittedAt }

/-- `FraudService.submitFraud`.  JavaScript falsiness of a typed string
field is emptiness, so `!request.field` is `field = ""`.  `s3Ok` models
whether `s3Service.uploadFraudRecord` succeeds; its failure is caught and
swallowed by the source, so it influences nothing. -/
def submitFraud (records : List FraudRecord) (request : FraudSubmissionRequest)
    (fraudId submittedAt : String) (s3Ok : Bool) : SubmitOutcome :=
  if request.bankId = "" ∨ request.deviceIdHash = "" ∨ request.accountIdHash = ""
      ∨ request.transactionPatternHash = "" ∨ request.fraudType = ""
      ∨ request.timestamp = "" ∨ request.severity = "" then
    { response := { success := false, message := "Missing required fields", fraudId := none }
      newRecords := records
      s3PutAttempted := false }
  else
    { response :=
        { success := true, message := "Fraud data submitted successfully", fraudId := some fraudId }
      newRecords := records ++ [mkFraudRecord request fraudId submittedAt]
      s3PutAttempted := true }

/-- `FraudService.loadFromS3`: `store` is the list returned by
`s3Service.listFraudRecords(1000)`; records whose `fraudId` is already in
the working set are filtered out, the rest are appended. -/
def loadFromS3 (store : List FraudRecord) (records : List FraudRecord) : List FraudRecord :=
  if store.length > 0 then
    let existingIds := records.map (fun r => r.fraudId)
    records ++ store.filter (fun r => !existingIds.contains r.fraudId)
  else records

/-- `FraudService.syncWithS3`: with the in-flight guard clear it just runs
`loadFromS3`; with the guard set it is a no-op. -/
def syncWithS3 (syncInProgress : Bool) (store : List FraudRecord)
    (records : List FraudRecord) : List FraudRecord :=
  if syncInProgress then records else loadFromS3 store records

theorem jsMax_zero_nonneg (q : ℚ) : 0 ≤ jsMax 0 q := by
  unfold jsMax
  split
  · assumption
  · exact le_refl 0

theorem clamp01_nonneg (q : ℚ) : 0 ≤ clamp01 q := by
  unfold clamp01 jsMin
  split
  · exact zero_le_one
  · exact jsMax_zero_nonneg q

theorem clamp01_le_one (q : ℚ) : clamp01 q ≤ 1 := by
  unfold clamp01 jsMin
  split
  · exact le_refl 1
  · exact le_of_not_le (by assumption)

/-- Rounding a clamped score to two decimals yields `n / 100` for some
natural `n ≤ 100`. -/
theorem jsRound2_repr (q : ℚ) (h0 : 0 ≤ q) (h1 : q ≤ 1) :
    ∃ n : ℕ, n ≤ 100 ∧ jsRound2 q = (n : ℚ) / 100 := by
  unfold jsRound2
  rw [ratFloor_eq_floor]
  have hm0 : 0 ≤ ⌊q * 100 + 1 / 2⌋ := Int.le_floor.mpr (by push_cast; linarith)
  have hm100 : ⌊q * 100 + 1 / 2⌋ ≤ 100 := by
    have hle : ((⌊q * 100 + 1 / 2⌋ : ℤ) : ℚ) ≤ q * 100 + 1 / 2 := Int.floor_le _
    have hlt : ((⌊q * 100 + 1 / 2⌋ : ℤ) : ℚ) < 101 := lt_of_le_of_lt hle (by linarith)
    have : ⌊q * 100 + 1 / 2⌋ < 101 := by exact_mod_cast hlt
    omega
  refine ⟨(⌊q * 100 + 1 / 2⌋).toNat, by omega, ?_⟩
  have hcast : (((⌊q * 100 + 1 / 2⌋).toNat : ℕ) : ℚ) = ((⌊q * 100 + 1 / 2⌋ : ℤ) : ℚ) := by
    exact_mod_cast Int.toNat_of_nonneg hm0
  rw [hcast]

/-! ## Claims about the two scorers -/

/-- C1: for every `BehaviorSample` and every `TransactionSample`, the risk
score returned by the scorer (`intentRiskScore` from `analyzeBehavior`,
`riskScore` from `analyzeTransaction`) equals the weighted sum of
sub-scores clamped to `[0, 1]` and rounded to two decimal places, and
therefore lies in `[0.00, 1.00]` and is an exact multiple of `1/100`, even
when the unclamped weighted sum exceeds `1.0`. -/
theorem claim_C1_scores_clamped_and_rounded
    (b : BehaviorAnalysisRequest) (t : TransactionPredictionRequest) :
    ((analyzeBehavior b).intentRiskScore = jsRound2 (clamp01 (behaviorRawScore b))
      ∧ ∃ n : ℕ, n ≤ 100 ∧ (analyzeBehavior b).intentRiskScore = (n : ℚ) / 100
        ∧ 0 ≤ (analyzeBehavior b).intentRiskScore ∧ (analyzeBehavior b).intentRiskScore ≤ 1)
    ∧ ((analyzeTransaction t).riskScore = jsRound2 (clamp01 (txRawScore t))
      ∧ ∃ n : ℕ, n ≤ 100 ∧ (analyzeTransaction t).riskScore = (n : ℚ) / 100
        ∧ 0 ≤ (analyzeTransaction t).riskScore ∧ (analyzeTransaction t).riskScore ≤ 1) := by
  constructor
  · refine ⟨rfl, ?_⟩
    obtain ⟨n, hn, he⟩ :=
      jsRound2_repr (clamp01 (behaviorRawScore b)) (clamp01_nonneg _) (clamp01_le_one _)
    have hn100 : (n : ℚ) ≤ 100 := by exact_mod_cast hn
    refine ⟨n, hn, he, ?_, ?_⟩
    · show 0 ≤ (analyzeBehavior b).intentRiskScore
      rw [show (analyzeBehavior b).intentRiskScore = jsRound2 (clamp01 (behaviorRawScore b)) from rfl, he]
      positivity
    · show (analyzeBehavior b).intentRiskScore ≤ 1
      rw [show (analyzeBehavior b).intentRiskScore = jsRound2 (clamp01 (behaviorRawScore b)) from rfl, he]
      linarith
  · refine ⟨rfl, ?_⟩
    obtain ⟨n, hn, he⟩ :=
      jsRound2_repr (clamp01 (txRawScore t)) (clamp01_nonneg _) (clamp01_le_one _)
    have hn100 : (n : ℚ) ≤ 100 := by exact_mod_cast hn
    refine ⟨n, hn, he, ?_, ?_⟩
    · show 0 ≤ (analyzeTransaction t).riskScore
      rw [show (analyzeTransaction t).riskScore = jsRound2 (clamp01 (txRawScore t)) from rfl, he]
      positivity
    · show (analyzeTransaction t).riskScore ≤ 1
      rw [show (analyzeTransaction t).riskScore = jsRound2 (clamp01 (txRawScore t)) from rfl, he]
      linarith

/-- C9: on typingSpeed 100, mouseMovement 1500, clickPattern
`[100, 100, 100, 100]`, navigationTime 5 and pagesVisited
`["dashboard", "settings"]` (any userId and sessionId), `analyzeBehavior`
returns `intentRiskScore = 0.27` and exactly the flag `"typing_slow"`. -/
theorem claim_C9_behavior_test_vector (userId sessionId : String) :
    analyzeBehavior
      { userId := userId, sessionId := sessionId, typingSpeed := 100, mouseMovement := 1500,
        clickPattern := [100, 100, 100, 100], navigationTime := 5,
        pagesVisited := ["dashboard", "settings"] }
      = { sessionId := sessionId, intentRiskScore := 0.27, behaviorFlags := ["typing_slow"] } := by
  have ht : analyzeTypingSpeed 100 = 0.95 := by
    norm_num [analyzeTypingSpeed, TYPING_SPEED_THRESHOLD_LOW, TYPING_SPEED_THRESHOLD_HIGH]
  have hm : analyzeMouseMovement 1500 = 0 := by
    norm_num [analyzeMouseMovement, MOUSE_MOVEMENT_THRESHOLD_LOW, MOUSE_MOVEMENT_THRESHOLD_HIGH]
  have hc : analyzeClickPattern [100, 100, 100, 100] = 0 := by
    norm_num [analyzeClickPattern, CLICK_PATTERN_VARIANCE_THRESHOLD]
  have hsens : hasSensitivePage ["dashboard", "settings"] = false := by decide
  have hn : analyzeNavigationTime 5 ["dashboard", "settings"] = 0 := by
    simp [analyzeNavigationTime, hsens]
  have hp : analyzePageVisits ["dashboard", "settings"] = 0 := by
    simp +decide [analyzePageVisits]
  simp only [analyzeBehavior, behaviorRawScore, behaviorFlagsOf,
    BehaviorAnalysisResponse.mk.injEq]
  rw [ht, hm, hc, hn, hp]
  norm_num [jsRound2, clamp01, jsMin, jsMax, Rat.floor_def']

/-- C2: on amount 5000, userAverageTransAmount 200, type `"wire_transfer"`,
location `"offshore"`, deviceId `"device-xyz789"`, recipientAccount
`"acc999"` and any parseable timestamp with UTC hour 3 on a weekday,
`analyzeTransaction` returns riskScore 0.78, reason codes
`[VERY_HIGH_AMOUNT, HIGH_RISK_TRANSACTION_TYPE, HIGH_RISK_LOCATION,
UNUSUAL_TIMING, NEW_RECIPIENT]` in that order, predictionResult HIGH_RISK
and recommendedAction BLOCK. -/
theorem claim_C2_transaction_test_vector
    (transactionId userId currency : String) (d : ℕ) (hd : 1 ≤ d ∧ d ≤ 5) :
    analyzeTransaction
      { transactionId := transactionId, userId := userId, amount := 5000, currency := currency,
        recipientAccount := "acc999", userAverageTransAmount := 200,
        transactionType := "wire_transfer", location := "offshore",
        timestamp := JsDate.valid 3 d, deviceId := "device-xyz789" }
      = { transactionId := transactionId, predictionResult := .HIGH_RISK, riskScore := 0.78,
          recommendedAction := .BLOCK,
          reasonCodes := ["VERY_HIGH_AMOUNT", "HIGH_RISK_TRANSACTION_TYPE",
            "HIGH_RISK_LOCATION", "UNUSUAL_TIMING", "NEW_RECIPIENT"] } := by
  have ha : analyzeAmount 5000 200 = 0.98 := by
    norm_num [analyzeAmount, VERY_HIGH_AMOUNT_MULTIPLIER, HIGH_AMOUNT_MULTIPLIER]
  have htt : analyzeTransactionType "wire_transfer" = 0.85 := by
    simp +decide [analyzeTransactionType]
  have hl : analyzeLocation "offshore" = 0.9 := by
    simp +decide [analyzeLocation]
  have hdev : analyzeDevice "device-xyz789" userId = 0 := by
    simp +decide [analyzeDevice]
  have hti : analyzeTiming (JsDate.valid 3 d) userId = 0.65 := by
    simp [analyzeTiming]
  have hr : analyzeRecipient "acc999" userId = 0.35 := by
    simp +decide [analyzeRecipient]
  have hcodes :
      txReasonCodes
        { transactionId := transactionId, userId := userId, amount := 5000, currency := currency,
          recipientAccount := "acc999", userAverageTransAmount := 200,
          transactionType := "wire_transfer", location := "offshore",
          timestamp := JsDate.valid 3 d, deviceId := "device-xyz789" }
      = ["VERY_HIGH_AMOUNT", "HIGH_RISK_TRANSACTION_TYPE",
          "HIGH_RISK_LOCATION", "UNUSUAL_TIMING", "NEW_RECIPIENT"] := by
    simp only [txReasonCodes]
    rw [ha, htt, hl, hdev, hti, hr]
    norm_num [VERY_HIGH_AMOUNT_MULTIPLIER]
  have hraw :
      txRawScore
        { transactionId := transactionId, userId := userId, amount := 5000, currency := currency,
          recipientAccount := "acc999", userAverageTransAmount := 200,
          transactionType := "wire_transfer", location := "offshore",
          timestamp := JsDate.valid 3 d, deviceId := "device-xyz789" }
      = 0.7826 := by
    simp only [txRawScore]
    rw [ha, htt, hl, hdev, hti, hr]
    norm_num
  have hclamp : clamp01 (0.7826 : ℚ) = 0.7826 := by
    norm_num [clamp01, jsMin, jsMax]
  simp only [analyzeTransaction, TransactionPredictionResponse.mk.injEq]
  rw [hraw, hcodes, hclamp]
  refine ⟨trivial, ?_, ?_, ?_, rfl⟩
  · norm_num [HIGH_RISK_SCORE_THRESHOLD]
  · norm_num [jsRound2, Rat.floor_def']
  · simp +decide [determineAction]

/-- Witness for C2 at the concrete weekday Tuesday (`getUTCDay = 2`). -/
theorem claim_C2_transaction_test_vector_witness :
    analyzeTransaction
      { transactionId := "tx-1", userId := "user-1", amount := 5000, currency := "USD",
        recipientAccount := "acc999", userAverageTransAmount := 200,
        transactionType := "wire_transfer", location := "offshore",
        timestamp := JsDate.valid 3 2, deviceId := "device-xyz789" }
      = { transactionId := "tx-1", predictionResult := .HIGH_RISK, riskScore := 0.78,
          recommendedAction := .BLOCK,
          reasonCodes := ["VERY_HIGH_AMOUNT", "HIGH_RISK_TRANSACTION_TYPE",
            "HIGH_RISK_LOCATION", "UNUSUAL_TIMING", "NEW_RECIPIENT"] } :=
  claim_C2_transaction_test_vector "tx-1" "user-1" "USD" 2 (by decide)

/-- Membership in a conditional singleton list. -/
theorem mem_ite_singleton {c : Prop} [Decidable c] {x y : String} :
    x ∈ (if c then [y] else ([] : List String)) ↔ c ∧ x = y := by
  split
  · simp [*]
  · simp [*]

/-- Concrete transaction whose location fires only the 0.55 tier and whose
recipient fires only the 0.35 tier. -/
def reqC3 : TransactionPredictionRequest :=
  { transactionId := "t1", userId := "u1", amount := 100, currency := "USD",
    recipientAccount := "abcdefg", userAverageTransAmount := 100,
    transactionType := "deposit", location := "international",
    timestamp := JsDate.valid 12 3, deviceId := "device-abc123" }

/-- Counterexample to C3: with location `"international"` (the 0.55 tier)
the source still pushes `HIGH_RISK_LOCATION`, and with recipient
`"abcdefg"` (the 0.35 tier) it still pushes `NEW_RECIPIENT`. -/
theorem claim_C3_counterexample :
    analyzeLocation "international" = 0.55
    ∧ "HIGH_RISK_LOCATION" ∈ (analyzeTransaction reqC3).reasonCodes
    ∧ analyzeRecipient "abcdefg" "u1" = 0.35
    ∧ "NEW_RECIPIENT" ∈ (analyzeTransaction reqC3).reasonCodes := by
  have hA : analyzeAmount 100 100 = 0 := by
    norm_num [analyzeAmount, VERY_HIGH_AMOUNT_MULTIPLIER, HIGH_AMOUNT_MULTIPLIER]
  have htt : analyzeTransactionType "deposit" = 0.15 := by
    simp +decide [analyzeTransactionType]
  have hl : analyzeLocation "international" = 0.55 := by
    simp +decide [analyzeLocation]
  have hdev : analyzeDevice "device-abc123" "u1" = 0 := by
    simp +decide [analyzeDevice]
  have hti : analyzeTiming (JsDate.valid 12 3) "u1" = 0 := by
    simp [analyzeTiming]
  have hr : analyzeRecipient "abcdefg" "u1" = 0.35 := by
    simp +decide [analyzeRecipient]
  have hcodes : txReasonCodes reqC3
      = ["HIGH_RISK_TRANSACTION_TYPE", "HIGH_RISK_LOCATION", "NEW_RECIPIENT"] := by
    simp only [txReasonCodes, reqC3, hA, htt, hl, hdev, hti, hr]
    norm_num [VERY_HIGH_AMOUNT_MULTIPLIER]
  have hmem : (analyzeTransaction reqC3).reasonCodes
      = ["HIGH_RISK_TRANSACTION_TYPE", "HIGH_RISK_LOCATION", "NEW_RECIPIENT"] := by
    show txReasonCodes reqC3 = _
    exact hcodes
  refine ⟨hl, ?_, hr, ?_⟩ <;> rw [hmem] <;> decide

/-- C3 (amended): the lower location tiers (0.55 for
international/foreign, 0.3 for country/state/abroad) and the lower
recipient tiers (0.6, 0.35) DO emit their reason codes: the source pushes
`HIGH_RISK_LOCATION` whenever the location sub-score is positive and
`NEW_RECIPIENT` whenever the recipient sub-score is positive, lower tiers
included. -/
theorem claim_C3_amended_lower_tiers_emit_codes (r : TransactionPredictionRequest) :
    ((analyzeLocation r.location = 0.55 ∨ analyzeLocation r.location = 0.3) →
      "HIGH_RISK_LOCATION" ∈ (analyzeTransaction r).reasonCodes)
    ∧ ((analyzeRecipient r.recipientAccount r.userId = 0.6
        ∨ analyzeRecipient r.recipientAccount r.userId = 0.35) →
      "NEW_RECIPIENT" ∈ (analyzeTransaction r).reasonCodes) := by
  constructor
  · intro h
    have hpos : analyzeLocation r.location > 0 := by
      rcases h with h | h <;> rw [h] <;> norm_num
    show "HIGH_RISK_LOCATION" ∈ txReasonCodes r
    unfold txReasonCodes
    apply List.mem_append_left
    apply List.mem_append_left
    apply List.mem_append_left
    apply List.mem_append_right
    rw [if_pos hpos]
    exact List.mem_singleton_self _
  · intro h
    have hpos : analyzeRecipient r.recipientAccount r.userId > 0 := by
      rcases h with h | h <;> rw [h] <;> norm_num
    show "NEW_RECIPIENT" ∈ txReasonCodes r
    unfold txReasonCodes
    apply List.mem_append_right
    rw [if_pos hpos]
    exact List.mem_singleton_self _

/-- Concrete transaction with a 0.55-tier location and a 0.6-tier
recipient. -/
def reqC3w : TransactionPredictionRequest :=
  { transactionId := "t2", userId := "u2", amount := 100, currency := "USD",
    recipientAccount := "unknownacct", userAverageTransAmount := 100,
    transactionType := "deposit", location := "foreign city",
    timestamp := JsDate.valid 12 3, deviceId := "device-abc123" }

/-- Witness for the amended C3 at a concrete lower-tier input. -/
theorem claim_C3_amended_lower_tiers_emit_codes_witness :
    "HIGH_RISK_LOCATION" ∈ (analyzeTransaction reqC3w).reasonCodes
    ∧ "NEW_RECIPIENT" ∈ (analyzeTransaction reqC3w).reasonCodes :=
  ⟨(claim_C3_amended_lower_tiers_emit_codes reqC3w).1
      (Or.inl (by simp +decide [reqC3w, analyzeLocation])),
    (claim_C3_amended_lower_tiers_emit_codes reqC3w).2
      (Or.inl (by simp +decide [reqC3w, analyzeRecipient]))⟩

/-- Concrete transaction whose amount ratio is exactly 5. -/
def reqC4 : TransactionPredictionRequest :=
  { transactionId := "t3", userId := "u3", amount := 1000, currency := "USD",
    recipientAccount := "abcdefgh", userAverageTransAmount := 200,
    transactionType := "deposit", location := "local",
    timestamp := JsDate.valid 12 3, deviceId := "device-abc123" }

/-- Counterexample to C4: at ratio exactly 5 the amount factor scores 0.98
but the appended reason code is `HIGH_AMOUNT`, not `VERY_HIGH_AMOUNT`,
because the reason-code branch uses the strict `amount > 5 * average`. -/
theorem claim_C4_counterexample :
    analyzeAmount 1000 200 = 0.98
    ∧ (1000 : ℚ) / 200 ≥ 5
    ∧ "VERY_HIGH_AMOUNT" ∉ (analyzeTransaction reqC4).reasonCodes
    ∧ "HIGH_AMOUNT" ∈ (analyzeTransaction reqC4).reasonCodes := by
  have hA : analyzeAmount 1000 200 = 0.98 := by
    norm_num [analyzeAmount, VERY_HIGH_AMOUNT_MULTIPLIER, HIGH_AMOUNT_MULTIPLIER]
  have htt : analyzeTransactionType "deposit" = 0.15 := by
    simp +decide [analyzeTransactionType]
  have hl : analyzeLocation "local" = 0 := by
    simp +decide [analyzeLocation]
  have hdev : analyzeDevice "device-abc123" "u3" = 0 := by
    simp +decide [analyzeDevice]
  have hti : analyzeTiming (JsDate.valid 12 3) "u3" = 0 := by
    simp [analyzeTiming]
  have hr : analyzeRecipient "abcdefgh" "u3" = 0 := by
    simp +decide [analyzeRecipient]
  have hcodes : txReasonCodes reqC4 = ["HIGH_AMOUNT", "HIGH_RISK_TRANSACTION_TYPE"] := by
    simp only [txReasonCodes, reqC4, hA, htt, hl, hdev, hti, hr]
    norm_num [VERY_HIGH_AMOUNT_MULTIPLIER]
  have hmem : (analyzeTransaction reqC4).reasonCodes = ["HIGH_AMOUNT", "HIGH_RISK_TRANSACTION_TYPE"] := by
    show txReasonCodes reqC4 = _
    exact hcodes
  refine ⟨hA, by norm_num, ?_, ?_⟩ <;> rw [hmem] <;> decide

/-- C4 (amended): with a positive average and ratio ≥ 5 the amount factor
scores 0.98, but the reason code appended for the amount factor is
`VERY_HIGH_AMOUNT` exactly when the amount strictly exceeds 5 × average;
at ratio exactly 5 the code appended is `HIGH_AMOUNT`. -/
theorem claim_C4_amended_ratio_five_boundary (r : TransactionPredictionRequest)
    (h1 : 0 < r.userAverageTransAmount)
    (h2 : 5 ≤ r.amount / r.userAverageTransAmount) :
    analyzeAmount r.amount r.userAverageTransAmount = 0.98
    ∧ ("VERY_HIGH_AMOUNT" ∈ (analyzeTransaction r).reasonCodes
        ↔ r.userAverageTransAmount * 5 < r.amount)
    ∧ ("HIGH_AMOUNT" ∈ (analyzeTransaction r).reasonCodes
        ↔ r.amount = r.userAverageTransAmount * 5) := by
  have hge : r.userAverageTransAmount * 5 ≤ r.amount := by
    have h5 : 5 * r.userAverageTransAmount ≤ r.amount := (le_div_iff₀ h1).mp h2
    linarith
  have hA : analyzeAmount r.amount r.userAverageTransAmount = 0.98 := by
    simp only [analyzeAmount, VERY_HIGH_AMOUNT_MULTIPLIER]
    rw [if_neg (not_le.mpr h1), if_pos h2]
  have hpos : analyzeAmount r.amount r.userAverageTransAmount > 0 := by
    rw [hA]; norm_num
  have hVmem : r.userAverageTransAmount * 5 < r.amount →
      "VERY_HIGH_AMOUNT" ∈ txReasonCodes r := by
    intro hgt
    unfold txReasonCodes
    apply List.mem_append_left
    apply List.mem_append_left
    apply List.mem_append_left
    apply List.mem_append_left
    apply List.mem_append_left
    rw [if_pos hpos,
      if_pos (show r.amount > r.userAverageTransAmount * VERY_HIGH_AMOUNT_MULTIPLIER from hgt)]
    exact List.mem_singleton_self _
  have hHmem : ¬(r.userAverageTransAmount * 5 < r.amount) →
      "HIGH_AMOUNT" ∈ txReasonCodes r := by
    intro hngt
    unfold txReasonCodes
    apply List.mem_append_left
    apply List.mem_append_left
    apply List.mem_append_left
    apply List.mem_append_left
    apply List.mem_append_left
    rw [if_pos hpos,
      if_neg (show ¬(r.amount > r.userAverageTransAmount * VERY_HIGH_AMOUNT_MULTIPLIER) from hngt)]
    exact List.mem_singleton_self _
  have hscan : ∀ x : String, x ∈ txReasonCodes r →
      x ∈ (if analyzeAmount r.amount r.userAverageTransAmount > 0 then
            (if r.amount > r.userAverageTransAmount * VERY_HIGH_AMOUNT_MULTIPLIER then
              ["VERY_HIGH_AMOUNT"] else ["HIGH_AMOUNT"]) else [])
      ∨ x ∈ ["HIGH_RISK_TRANSACTION_TYPE", "HIGH_RISK_LOCATION", "NEW_DEVICE",
          "UNUSUAL_TIMING", "NEW_RECIPIENT"] := by
    intro x hx
    unfold txReasonCodes at hx
    rcases List.mem_append.mp hx with hx | hx
    rotate_left
    · rcases mem_ite_singleton.mp hx with ⟨-, rfl⟩; right; simp
    rcases List.mem_append.mp hx with hx | hx
    rotate_left
    · rcases mem_ite_singleton.mp hx with ⟨-, rfl⟩; right; simp
    rcases List.mem_append.mp hx with hx | hx
    rotate_left
    · rcases mem_ite_singleton.mp hx with ⟨-, rfl⟩; right; simp
    rcases List.mem_append.mp hx with hx | hx
    rotate_left
    · rcases mem_ite_singleton.mp hx with ⟨-, rfl⟩; right; simp
    rcases List.mem_append.mp hx with hx | hx
    rotate_left
    · rcases mem_ite_singleton.mp hx with ⟨-, rfl⟩; right; simp
    · left; exact hx
  refine ⟨hA, ?_, ?_⟩
  · constructor
    · intro hm
      rcases hscan _ hm with hm | hm
      · rw [if_pos hpos] at hm
        by_cases hgt : r.userAverageTransAmount * 5 < r.amount
        · exact hgt
        · rw [if_neg (show ¬(r.amount > r.userAverageTransAmount * VERY_HIGH_AMOUNT_MULTIPLIER)
              from hgt)] at hm
          exact absurd (List.mem_singleton.mp hm) (by decide)
      · exact absurd hm (by decide)
    · exact fun hgt => hVmem hgt
  · constructor
    · intro hm
      rcases hscan _ hm with hm | hm
      · rw [if_pos hpos] at hm
        by_cases hgt : r.userAverageTransAmount * 5 < r.amount
        · rw [if_pos (show r.amount > r.userAverageTransAmount * VERY_HIGH_AMOUNT_MULTIPLIER
              from hgt)] at hm
          exact absurd (List.mem_singleton.mp hm) (by decide)
        · exact le_antisymm (not_lt.mp hgt) hge
      · exact absurd hm (by decide)
    · intro heq
      exact hHmem (by rw [heq]; exact lt_irrefl _)

/-- Concrete transaction whose amount strictly exceeds 5 × average. -/
def reqC4w : TransactionPredictionRequest :=
  { transactionId := "t4", userId := "u4", amount := 1001, currency := "USD",
    recipientAccount := "abcdefgh", userAverageTransAmount := 200,
    transactionType := "deposit", location := "local",
    timestamp := JsDate.valid 12 3, deviceId := "device-abc123" }

/-- Witness for the amended C4 at a concrete ratio above 5. -/
theorem claim_C4_amended_ratio_five_boundary_witness :
    analyzeAmount reqC4w.amount reqC4w.userAverageTransAmount = 0.98
    ∧ ("VERY_HIGH_AMOUNT" ∈ (analyzeTransaction reqC4w).reasonCodes
        ↔ reqC4w.userAverageTransAmount * 5 < reqC4w.amount)
    ∧ ("HIGH_AMOUNT" ∈ (analyzeTransaction reqC4w).reasonCodes
        ↔ reqC4w.amount = reqC4w.userAverageTransAmount * 5) :=
  claim_C4_amended_ratio_five_boundary reqC4w (by norm_num [reqC4w]) (by norm_num [reqC4w])

/-! ## Claims about the fraud intelligence ledger -/

/-- Submission request with every field present but a severity outside the
four allowed values. -/
def reqC5bad : FraudSubmissionRequest :=
  { bankId := "bank-1", deviceIdHash := "dh", accountIdHash := "ah",
    transactionPatternHash := "ph", fraudType := "phishing",
    timestamp := "2024-01-01T00:00:00Z", severity := "bogus" }

/-- Counterexample to C5: `submitFraud` itself does not validate severity
membership — a present but invalid severity (`"bogus"`) is accepted with
`success = true` and appended to the working set. -/
theorem claim_C5_counterexample :
    reqC5bad.severity ∉ ["low", "medium", "high", "critical"]
    ∧ (submitFraud [] reqC5bad "fraud-1" "2024-01-02T00:00:00Z" true).response.success = true
    ∧ (submitFraud [] reqC5bad "fraud-1" "2024-01-02T00:00:00Z" true).newRecords
        = [mkFraudRecord reqC5bad "fraud-1" "2024-01-02T00:00:00Z"] := by
  refine ⟨by decide, ?_, ?_⟩ <;> rfl

/-- C5 (amended): `submitFraud` validates only that the seven required
fields are present (non-empty); the severity-membership check lives in the
HTTP route layer, so a request whose severity is present but not one of
low/medium/high/critical is accepted by `submitFraud` with `success = true`
and appended to the working set. -/
theorem claim_C5_amended_no_severity_validation
    (records : List FraudRecord) (request : FraudSubmissionRequest)
    (fraudId submittedAt : String) (s3Ok : Bool)
    (hsev : request.severity ∉ ["low", "medium", "high", "critical"])
    (h : request.bankId ≠ "" ∧ request.deviceIdHash ≠ "" ∧ request.accountIdHash ≠ ""
      ∧ request.transactionPatternHash ≠ "" ∧ request.fraudType ≠ ""
      ∧ request.timestamp ≠ "" ∧ request.severity ≠ "") :
    (submitFraud records request fraudId submittedAt s3Ok).response.success = true
    ∧ (submitFraud records request fraudId submittedAt s3Ok).newRecords
        = records ++ [mkFraudRecord request fraudId submittedAt] := by
  obtain ⟨h1, h2, h3, h4, h5, h6, h7⟩ := h
  unfold submitFraud
  rw [if_neg (by simp [h1, h2, h3, h4, h5, h6, h7])]
  exact ⟨rfl, rfl⟩

/-- Witness for the amended C5. -/
theorem claim_C5_amended_no_severity_validation_witness :
    (submitFraud [] reqC5bad "fraud-2" "2024-01-02T00:00:00Z" false).response.success = true
    ∧ (submitFraud [] reqC5bad "fraud-2" "2024-01-02T00:00:00Z" false).newRecords
        = [] ++ [mkFraudRecord reqC5bad "fraud-2" "2024-01-02T00:00:00Z"] :=
  claim_C5_amended_no_severity_validation [] reqC5bad "fraud-2" "2024-01-02T00:00:00Z" false
    (by decide) (by decide)

/-- C6: when all seven required fields are present, `submitFraud` appends
exactly one record to the working set and reports `success = true` with the
generated fraudId, and the durable-store outcome `s3Ok` influences neither
the response nor the in-memory append (store failures are swallowed). -/
theorem claim_C6_success_independent_of_store
    (records : List FraudRecord) (request : FraudSubmissionRequest)
    (fraudId submittedAt : String) (s3Ok : Bool)
    (h : request.bankId ≠ "" ∧ request.deviceIdHash ≠ "" ∧ request.accountIdHash ≠ ""
      ∧ request.transactionPatternHash ≠ "" ∧ request.fraudType ≠ ""
      ∧ request.timestamp ≠ "" ∧ request.severity ≠ "") :
    (submitFraud records request fraudId submittedAt s3Ok).response.success = true
    ∧ (submitFraud records request fraudId submittedAt s3Ok).response.fraudId = some fraudId
    ∧ (submitFraud records request fraudId submittedAt s3Ok).newRecords
        = records ++ [mkFraudRecord request fraudId submittedAt]
    ∧ submitFraud records request fraudId submittedAt true
        = submitFraud records request fraudId submittedAt false := by
  obtain ⟨h1, h2, h3, h4, h5, h6, h7⟩ := h
  unfold submitFraud
  rw [if_neg (by simp [h1, h2, h3, h4, h5, h6, h7])]
  exact ⟨rfl, rfl, rfl, rfl⟩

/-- Submission request with all seven fields present and a valid severity. -/
def reqC6 : FraudSubmissionRequest :=
  { bankId := "bank-2", deviceIdHash := "dh2", accountIdHash := "ah2",
    transactionPatternHash := "ph2", fraudType := "skimming",
    timestamp := "2024-02-01T00:00:00Z", severity := "high" }

/-- Witness for C6. -/
theorem claim_C6_success_independent_of_store_witness :
    (submitFraud [] reqC6 "fraud-3" "2024-02-02T00:00:00Z" false).response.success = true
    ∧ (submitFraud [] reqC6 "fraud-3" "2024-02-02T00:00:00Z" false).response.fraudId = some "fraud-3"
    ∧ (submitFraud [] reqC6 "fraud-3" "2024-02-02T00:00:00Z" false).newRecords
        = [] ++ [mkFraudRecord reqC6 "fraud-3" "2024-02-02T00:00:00Z"]
    ∧ submitFraud [] reqC6 "fraud-3" "2024-02-02T00:00:00Z" true
        = submitFraud [] reqC6 "fraud-3" "2024-02-02T00:00:00Z" false :=
  claim_C6_success_independent_of_store [] reqC6 "fraud-3" "2024-02-02T00:00:00Z" false (by decide)

/-- C10: when `submitFraud` rejects a request for a missing required field
it leaves the working set unchanged, returns no fraudId, and attempts no
write to the durable store. -/
theorem claim_C10_validation_failure_atomic
    (records : List FraudRecord) (request : FraudSubmissionRequest)
    (fraudId submittedAt : String) (s3Ok : Bool)
    (h : request.bankId = "" ∨ request.deviceIdHash = "" ∨ request.accountIdHash = ""
      ∨ request.transactionPatternHash = "" ∨ request.fraudType = ""
      ∨ request.timestamp = "" ∨ request.severity = "") :
    (submitFraud records request fraudId submittedAt s3Ok).response.success = false
    ∧ (submitFraud records request fraudId submittedAt s3Ok).response.fraudId = none
    ∧ (submitFraud records request fraudId submittedAt s3Ok).newRecords = records
    ∧ (submitFraud records request fraudId submittedAt s3Ok).s3PutAttempted = false := by
  unfold submitFraud
  rw [if_pos h]
  exact ⟨rfl, rfl, rfl, rfl⟩

/-- Submission request with a missing (empty) bankId. -/
def reqC10 : FraudSubmissionRequest :=
  { bankId := "", deviceIdHash := "dh3", accountIdHash := "ah3",
    transactionPatternHash := "ph3", fraudType := "phishing",
    timestamp := "2024-03-01T00:00:00Z", severity := "low" }

/-- Witness for C10. -/
theorem claim_C10_validation_failure_atomic_witness :
    (submitFraud [] reqC10 "fraud-4" "2024-03-02T00:00:00Z" true).response.success = false
    ∧ (submitFraud [] reqC10 "fraud-4" "2024-03-02T00:00:00Z" true).response.fraudId = none
    ∧ (submitFraud [] reqC10 "fraud-4" "2024-03-02T00:00:00Z" true).newRecords = []
    ∧ (submitFraud [] reqC10 "fraud-4" "2024-03-02T00:00:00Z" true).s3PutAttempted = false :=
  claim_C10_validation_failure_atomic [] reqC10 "fraud-4" "2024-03-02T00:00:00Z" true
    (Or.inl rfl)

/-- `loadFromS3` is a no-op when every stored record's fraudId is already
present in the working set. -/
theorem loadFromS3_absorb (store recs : List FraudRecord)
    (hsub : ∀ r ∈ store, r.fraudId ∈ recs.map (fun r => r.fraudId)) :
    loadFromS3 store recs = recs := by
  unfold loadFromS3
  by_cases h : store.length > 0
  · rw [if_pos h]
    have hnil : store.filter
        (fun r => !((recs.map (fun r => r.fraudId)).contains r.fraudId)) = [] := by
      rw [List.filter_eq_nil_iff]
      intro r hr hcon
      rw [Bool.not_eq_true'] at hcon
      have hct : (recs.map (fun r => r.fraudId)).contains r.fraudId = true :=
        List.elem_eq_true_of_mem (hsub r hr)
      rw [hcon] at hct
      exact Bool.false_ne_true hct
    simp only [hnil, List.append_nil]
  · rw [if_neg h]

/-- After one `loadFromS3`, every stored record's fraudId is present in the
working set. -/
theorem loadFromS3_covers (store records : List FraudRecord) :
    ∀ r ∈ store, r.fraudId ∈ (loadFromS3 store records).map (fun r => r.fraudId) := by
  intro r hr
  unfold loadFromS3
  by_cases h : store.length > 0
  · rw [if_pos h]
    simp only [List.map_append, List.mem_append]
    by_cases hmem0 : r.fraudId ∈ records.map (fun r => r.fraudId)
    · exact Or.inl hmem0
    · refine Or.inr (List.mem_map_of_mem _ ?_)
      rw [List.mem_filter]
      refine ⟨hr, ?_⟩
      rw [Bool.not_eq_true']
      simpa using hmem0
  · exfalso
    have hempty : store = [] := List.length_eq_zero.mp (by omega)
    rw [hempty] at hr
    cases hr

/-- C7: resync is idempotent — with the durable store returning the same
records both times, a second `loadFromS3` right after a first one leaves
the working set exactly as it was after the first: every listed record
whose fraudId is already present is filtered out before appending, so no
duplicate identifiers are added. -/
theorem claim_C7_resync_idempotent (store records : List FraudRecord) :
    loadFromS3 store (loadFromS3 store records) = loadFromS3 store records :=
  loadFromS3_absorb store (loadFromS3 store records) (loadFromS3_covers store records)

/-! ## Stable-sort head and first-encountered maximum (for C8) -/

